import Mathlib

/-!
Verification of the OneClick-Cookies consent-banner detector against its
specification.  The Lean definitions below are a shallow embedding of the
JavaScript source:

* `src/content/detector.js` — the `ConsentDetector` class: the visibility
  oracle `isVisible`, the known-CMP matcher `detectKnownCMP`, the keyword
  matcher `detectByKeywords`, the generic scorer's arithmetic
  `calculateBannerConfidence`, and the aggregating `detect` method with its
  two-second single-slot cache and `clearCache`.
* the content script (`src/unnamed/part_000`) — the actuation layer
  `handleAccept` / `handleDeny` / `findAndClickButton`, the popup message
  handler `handleMessage`, and the outbound `notifyBannerHandled` message.

Numeric confidences are modelled as exact rationals (the spec calls them
real numbers in [0,1]; every constant in the source is a short decimal
literal).  Times are integers in milliseconds.  DOM elements are modelled
by the attributes the source reads (computed style, bounding box, text),
and `document.querySelector` by an explicit lookup function.  JavaScript's
`Array.prototype.sort` is stable (ES2019), which the embedding reflects by
using `List.mergeSort`.
-/

/-- Computed style of an element, restricted to the properties the source
reads: `display`, `visibility`, `opacity` (as serialized strings, the way
`getComputedStyle` returns them and the way `detector.js` compares them). -/
structure Style where
  display : String
  visibility : String
  opacity : String
deriving DecidableEq, Repr

/-- Bounding client rect, restricted to the measures the source reads. -/
structure Rect where
  width : ℚ
  height : ℚ
deriving DecidableEq, Repr

/-- A DOM element, restricted to the attributes read by the detector and
the actuation layer: computed style, rendered box and text content
(`textContent` and, for inputs, `value`). -/
structure Element where
  style : Style
  rect : Rect
  textContent : String
  value : String
deriving DecidableEq, Repr

/-- ASCII model of JavaScript `String.prototype.toLowerCase` for one
character, which is all the fixtures here need. -/
def charLower (c : Char) : Char :=
  if 'A' ≤ c ∧ c ≤ 'Z' then Char.ofNat (c.toNat + 32) else c

/-- ASCII model of JavaScript `String.prototype.toLowerCase`. -/
def strLower (s : String) : String :=
  String.mk (s.toList.map charLower)

/-- Whitespace stripped by `String.prototype.trim`. -/
def isJsSpace (c : Char) : Bool :=
  c = ' ' ∨ c = '\t' ∨ c = '\n' ∨ c = '\r'

/-- Model of JavaScript `String.prototype.trim`. -/
def strTrim (s : String) : String :=
  String.mk (((s.toList.dropWhile isJsSpace).reverse.dropWhile isJsSpace).reverse)

/-- Embedding of `ConsentDetector.isVisible` (detector.js lines 636-646).
The JavaScript argument may be `null` (`if (!element) return false`), so
the Lean argument is an `Option Element`:

    isVisible(element) {
      if (!element) return false;
      const style = window.getComputedStyle(element);
      if (style.display === 'none' || style.visibility === 'hidden' || style.opacity === '0') {
        return false;
      }
      const rect = element.getBoundingClientRect();
      return rect.width > 0 && rect.height > 0;
    } -/
def isVisible (element : Option Element) : Bool :=
  match element with
  | none => false
  | some el =>
    if el.style.display = "none" ∨ el.style.visibility = "hidden" ∨
        el.style.opacity = "0" then
      false
    else
      decide (0 < el.rect.width) && decide (0 < el.rect.height)

/-- Tag identifying which classifier produced a detection result
(the `type` field of the result objects in detector.js). -/
inductive ClassifierType where
  | knownCMP
  | aria
  | keyword
  | cssPattern
  | backdrop
  | generic
  | shadowDOM
deriving DecidableEq, Repr

/-- A detection result object (detector.js).  The union of the fields the
claims refer to; classifiers that do not set a field leave the default
(`none`, `[]`, `0`). -/
structure DetectionResult where
  type : ClassifierType
  banner : Element
  confidence : ℚ
  cmpName : Option String := none
  acceptSelectors : Option (List String) := none
  rejectSelectors : Option (List String) := none
  matchCount : Nat := 0
  matchedKeywords : List String := []
deriving DecidableEq, Repr

/-- Position of each classifier in the `detectionResults` array literal of
`detect()` (detector.js lines 43-51).  Since the sort is stable, this
position is the code's effective tie-break priority. -/
def codePriority : ClassifierType → Nat
  | .knownCMP => 0
  | .aria => 1
  | .keyword => 2
  | .cssPattern => 3
  | .backdrop => 4
  | .generic => 5
  | .shadowDOM => 6

/-- The tie-break priority order asserted by the specification:
knownCMP > aria > backdrop > shadowDOM > keyword > generic > cssPattern. -/
def specPriority : ClassifierType → Nat
  | .knownCMP => 0
  | .aria => 1
  | .backdrop => 2
  | .shadowDOM => 3
  | .keyword => 4
  | .generic => 5
  | .cssPattern => 6

/-- Selector lists of one entry of the pattern database's `knownCMPs`
list (`selectors: { banner: [...], acceptButton: [...], rejectButton: [...] }`). -/
structure CMPSelectors where
  banner : List String
  acceptButton : List String
  rejectButton : List String
deriving DecidableEq, Repr

/-- One entry of `patterns.knownCMPs`.  The `selectors` field is optional
because the JSON is untrusted: a malformed entry without a `selectors`
object makes `cmp.selectors.banner` in detector.js line 81 throw a
`TypeError`. -/
structure KnownCMP where
  name : String
  selectors : Option CMPSelectors
deriving DecidableEq, Repr

/-- The body of the inner loop of `detectKnownCMP` for a single selector:
`document.querySelector(selector)` followed by the visibility test
(detector.js lines 82-83).  `q` is the document's `querySelector`. -/
def visibleQuery (q : String → Option Element) (sel : String) : Option Element :=
  match q sel with
  | some b => if isVisible (some b) then some b else none
  | none => none

/-- The inner loop of `detectKnownCMP`: first banner selector of one CMP
entry whose query result exists and is visible (detector.js lines 81-94). -/
def findBannerEl (q : String → Option Element) (sels : List String) : Option Element :=
  sels.findSome? (visibleQuery q)

/-- The detection result constructed at detector.js lines 85-92. -/
def mkKnownCMPResult (cmp : KnownCMP) (sels : CMPSelectors) (b : Element) : DetectionResult :=
  { type := .knownCMP
    banner := b
    confidence := 95/100
    cmpName := some cmp.name
    acceptSelectors := some sels.acceptButton
    rejectSelectors := some sels.rejectButton }

/-- The outer loop of `detectKnownCMP` over the known-CMP list.  A `none`
`selectors` field reproduces the JavaScript `TypeError` thrown by
`cmp.selectors.banner` when the entry is malformed; the error aborts the
whole classifier (and, since `detect()` has no try/catch, the whole
detection pass). -/
def detectKnownCMPgo (q : String → Option Element) :
    List KnownCMP → Except String (Option DetectionResult)
  | [] => .ok none
  | cmp :: rest =>
    match cmp.selectors with
    | none => .error "TypeError: cannot read banner of undefined"
    | some sels =>
      match findBannerEl q sels.banner with
      | some b => .ok (some (mkKnownCMPResult cmp sels b))
      | none => detectKnownCMPgo q rest

/-- Embedding of `ConsentDetector.detectKnownCMP` (detector.js lines
76-97).  `knownCMPs = none` models an absent `patterns.knownCMPs`
(`if (!this.patterns?.knownCMPs) return null`). -/
def detectKnownCMP (q : String → Option Element)
    (knownCMPs : Option (List KnownCMP)) : Except String (Option DetectionResult) :=
  match knownCMPs with
  | none => .ok none
  | some cmps => detectKnownCMPgo q cmps

/-- The confidence formula of the keyword matcher (detector.js line 174):
`Math.min(0.7 + (matchCount * 0.05), 0.9)`. -/
def keywordConfidence (matchCount : Nat) : ℚ :=
  min (7/10 + matchCount * (5/100)) (9/10)

/-- Keyword hit count of one overlay (detector.js lines 154-164): the
number of lexicon entries whose word-boundary regular expression matches
the overlay's text.  The regular-expression engine is abstracted by the
oracle `wb : keyword → text → Bool`. -/
def countKeywordHits (wb : String → String → Bool) (allKeywords : List String)
    (text : String) : Nat :=
  (allKeywords.filter (fun k => wb k text)).length

/-- The matched lexicon entries accumulated alongside the count
(detector.js line 162). -/
def matchedKeywordList (wb : String → String → Bool) (allKeywords : List String)
    (text : String) : List String :=
  allKeywords.filter (fun k => wb k text)

/-- Text the keyword matcher reads from an overlay (detector.js line 151):
`(overlay.innerText || overlay.textContent || '').toLowerCase()`.  The
embedding keeps one text field per element (innerText and textContent
agree on the fixtures we model), lower-cased here. -/
def overlayText (el : Element) : String :=
  strLower el.textContent

/-- The per-overlay loop of `detectByKeywords` (detector.js lines
150-177): return a result for the first overlay with at least two keyword
hits. -/
def detectByKeywordsGo (wb : String → String → Bool) (allKeywords : List String) :
    List Element → Option DetectionResult
  | [] => none
  | overlay :: rest =>
    let m := countKeywordHits wb allKeywords (overlayText overlay)
    if 2 ≤ m then
      some { type := .keyword
             banner := overlay
             confidence := keywordConfidence m
             matchCount := m
             matchedKeywords := matchedKeywordList wb allKeywords (overlayText overlay) }
    else
      detectByKeywordsGo wb allKeywords rest

/-- Embedding of `ConsentDetector.detectByKeywords` (detector.js lines
138-180).  `keywords = none` models an absent `patterns.keywords`;
`overlays` is the (already stacking-order sorted) output of
`findOverlays()`. -/
def detectByKeywords (wb : String → String → Bool)
    (keywords : Option (List String)) (overlays : List Element) :
    Option DetectionResult :=
  match keywords with
  | none => none
  | some allKeywords => detectByKeywordsGo wb allKeywords overlays

/-- Embedding of the arithmetic of
`ConsentDetector.calculateBannerConfidence` (detector.js lines 380-460)
over the features the source measures on the element: `kw` plain lexicon
matches of which `hv` also contain a high-value phrase (each such match
adds an extra 0.5 to `keywordMatches`), `buttons` actionable controls,
`actions` accept/reject text-fragment matches among the button texts,
whether the box is larger than 200x100, whether the computed position is
fixed or sticky, and whether a preference checkbox is present. -/
def calculateBannerConfidence (kw hv buttons actions : Nat)
    (bigBox posFixedSticky checkbox : Bool) : ℚ :=
  let keywordMatches : ℚ := kw + hv * (1/2)
  let c1 : ℚ := 4/10 + min (keywordMatches * (6/100)) (2/10)
  let c2 : ℚ := c1 + (if 2 ≤ buttons then 15/100 else if 1 ≤ buttons then 8/100 else 0)
  let c3 : ℚ := c2 + min (actions * (6/100)) (18/100)
  let c4 : ℚ := c3 + (if bigBox then 1/10 else 0)
  let c5 : ℚ := c4 + (if posFixedSticky then 5/100 else 0)
  let c6 : ℚ := c5 + (if checkbox then 8/100 else 0)
  min c6 (95/100)

/-- The comparator of `detect()` (detector.js line 62),
`(a, b) => b.confidence - a.confidence`, as the boolean "a may come
before b" relation used by a stable sort: the comparator is
non-positive exactly when `b.confidence ≤ a.confidence`. -/
def confDesc (a b : DetectionResult) : Bool :=
  decide (b.confidence ≤ a.confidence)

/-- Embedding of detector.js lines 53-63 applied to the already-filtered
list of non-null classifier results: `validResults.sort((a, b) =>
b.confidence - a.confidence)` followed by `validResults[0]`, with the
empty case returning null.  `Array.prototype.sort` is guaranteed stable
by ES2019, which `List.mergeSort` reflects. -/
def selectResult (validResults : List DetectionResult) : Option DetectionResult :=
  (validResults.mergeSort confDesc).head?

/-- Recursive characterization of "the first element of the list whose
confidence is maximal": an element is kept unless a strictly more
confident element occurs later.  Proven equal to `selectResult` in
`selectResult_eq_firstMaxConf` — this is exactly what a stable descending
sort followed by taking the head computes. -/
def firstMaxConf : List DetectionResult → Option DetectionResult
  | [] => none
  | a :: l =>
    match firstMaxConf l with
    | none => some a
    | some b => if b.confidence > a.confidence then some b else some a

/-- The non-null results one detection pass collected from the seven
classifiers, one slot per entry of the `detectionResults` array literal
(detector.js lines 43-51), in that order. -/
structure CycleOutputs where
  knownCMP : Option DetectionResult
  aria : Option DetectionResult
  keyword : Option DetectionResult
  cssPattern : Option DetectionResult
  backdrop : Option DetectionResult
  generic : Option DetectionResult
  shadowDOM : Option DetectionResult
deriving DecidableEq, Repr

/-- The `detectionResults` array in source order. -/
def cycleList (c : CycleOutputs) : List (Option DetectionResult) :=
  [c.knownCMP, c.aria, c.keyword, c.cssPattern, c.backdrop, c.generic, c.shadowDOM]

/-- The `validResults` list: `detectionResults.filter(r => r !== null)`
(detector.js line 54). -/
def validResults (c : CycleOutputs) : List DetectionResult :=
  (cycleList c).reduceOption

/-- One uncached detection pass of `detect()` (detector.js lines 43-63):
filter the nulls, stable-sort by descending confidence, take the first
element (or null when the list is empty). -/
def detectPass (c : CycleOutputs) : Option DetectionResult :=
  selectResult (validResults c)

/-- Confidences the generic structural scorer can emit: either the fixed
0.65 of the iframe sub-check, or a `calculateBannerConfidence` value that
passed the 0.5 admission threshold (detector.js lines 285-308). -/
def genericConfidenceAttainable (q : ℚ) : Prop :=
  q = 65/100 ∨
    ∃ kw hv buttons actions bigBox posFixedSticky checkbox,
      hv ≤ kw ∧
      q = calculateBannerConfidence kw hv buttons actions bigBox posFixedSticky checkbox ∧
      1/2 ≤ q

/-- Well-formedness of one cycle's classifier outputs: each slot carries
its own type tag and a confidence the corresponding classifier in
detector.js can produce (0.95, 0.85, `min(0.7+0.05m, 0.9)` with `m ≥ 2`,
0.6, 0.75, a generic-scorer value, 0.7 respectively). -/
def WFCycle (c : CycleOutputs) : Prop :=
  (∀ r, c.knownCMP = some r → r.type = .knownCMP ∧ r.confidence = 95/100) ∧
  (∀ r, c.aria = some r → r.type = .aria ∧ r.confidence = 85/100) ∧
  (∀ r, c.keyword = some r → r.type = .keyword ∧
    ∃ m, 2 ≤ m ∧ r.confidence = keywordConfidence m) ∧
  (∀ r, c.cssPattern = some r → r.type = .cssPattern ∧ r.confidence = 6/10) ∧
  (∀ r, c.backdrop = some r → r.type = .backdrop ∧ r.confidence = 75/100) ∧
  (∀ r, c.generic = some r → r.type = .generic ∧ genericConfidenceAttainable r.confidence) ∧
  (∀ r, c.shadowDOM = some r → r.type = .shadowDOM ∧ r.confidence = 7/10)

/-- Mutable state of a `ConsentDetector` instance relevant to caching:
whether the single-slot map holds a `'last'` entry
(`detectionCache.has('last')`), the stored value (which may itself be the
cached null), and `lastDetectionTime` in milliseconds. -/
structure DetectorState where
  cacheSet : Bool
  cacheVal : Option DetectionResult
  lastDetectionTime : Int
deriving DecidableEq, Repr

/-- The constructor state (detector.js lines 10-12): empty cache,
`lastDetectionTime = 0`. -/
def initialState : DetectorState :=
  { cacheSet := false, cacheVal := none, lastDetectionTime := 0 }

/-- Embedding of `ConsentDetector.clearCache` (detector.js lines 26-29):
`this.detectionCache.clear(); this.lastDetectionTime = 0;`. -/
def clearCache (_st : DetectorState) : DetectorState :=
  { cacheSet := false, cacheVal := none, lastDetectionTime := 0 }

/-- The `cacheTimeout` constant (detector.js line 12): 2000 ms. -/
def cacheTimeout : Int := 2000

/-- Embedding of `ConsentDetector.detect` (detector.js lines 35-70) for a
cycle whose classifiers all return normally.  `now` is `Date.now()`; `c`
holds what the seven classifiers return against the current DOM.  Returns
the result together with the updated detector state:

* cache hit — `detectionCache.has('last') && (now - lastDetectionTime) <
  cacheTimeout` — returns the stored value and leaves the state untouched;
* otherwise both the null and the non-null outcome of the pass are stored
  under `'last'` with `lastDetectionTime = now`. -/
def detect (c : CycleOutputs) (now : Int) (st : DetectorState) :
    Option DetectionResult × DetectorState :=
  if st.cacheSet ∧ now - st.lastDetectionTime < cacheTimeout then
    (st.cacheVal, st)
  else
    let result := detectPass c
    (result, { cacheSet := true, cacheVal := result, lastDetectionTime := now })

/-- Outcome of evaluating one classifier call inside the
`detectionResults` array literal: either a JavaScript exception (as its
message) or a nullable detection result. -/
abbrev ClassifierRun := Except String (Option DetectionResult)

/-- The seven classifier invocations of the array literal at detector.js
lines 43-51, each of which may throw. -/
structure CycleRuns where
  knownCMP : ClassifierRun
  aria : ClassifierRun
  keyword : ClassifierRun
  cssPattern : ClassifierRun
  backdrop : ClassifierRun
  generic : ClassifierRun
  shadowDOM : ClassifierRun

/-- The classifier invocations in array-literal order. -/
def runList (e : CycleRuns) : List ClassifierRun :=
  [e.knownCMP, e.aria, e.keyword, e.cssPattern, e.backdrop, e.generic, e.shadowDOM]

/-- JavaScript semantics of evaluating an array literal: the entries are
evaluated left to right and the first exception propagates, abandoning
the literal (and here the rest of `detect()`, which contains no
try/catch). -/
def evalArrayLiteral {α : Type} : List (Except String α) → Except String (List α)
  | [] => .ok []
  | x :: xs =>
    match x with
    | .error e => .error e
    | .ok a =>
      match evalArrayLiteral xs with
      | .error e => .error e
      | .ok rest => .ok (a :: rest)

/-- The first exception raised while evaluating the array literal, if
any. -/
def firstThrow {α : Type} : List (Except String α) → Option String
  | [] => none
  | .error e :: _ => some e
  | .ok _ :: xs => firstThrow xs

/-- The results of the classifiers that returned normally. -/
def okResults {α : Type} : List (Except String α) → List α
  | [] => []
  | .error _ :: xs => okResults xs
  | .ok a :: xs => a :: okResults xs

/-- One uncached run of `detect()`'s body (detector.js lines 43-63) when
classifier invocations may throw: evaluate the array literal, then filter
the nulls, stable-sort, and take the head.  No exception handler exists
between a classifier and the caller of `detect()`. -/
def detectPassRun (e : CycleRuns) : Except String (Option DetectionResult) :=
  match evalArrayLiteral (runList e) with
  | .error err => .error err
  | .ok results => .ok (selectResult results.reduceOption)

/-- Character-list helper for the JavaScript `String.prototype.includes`
test: does the pattern occur at the start of the text? -/
def charsHavePre : List Char → List Char → Bool
  | [], _ => true
  | _ :: _, [] => false
  | p :: ps, t :: ts => p == t && charsHavePre ps ts

/-- Character-list helper: does the pattern occur anywhere in the text? -/
def charsContain (p : List Char) : List Char → Bool
  | [] => p.isEmpty
  | t :: ts => charsHavePre p (t :: ts) || charsContain p ts

/-- JavaScript `s.includes(pat)`: substring containment. -/
def strIncludes (s pat : String) : Bool :=
  charsContain pat.toList s.toList

/-- The `buttonPatterns` part of the pattern database: per-polarity,
per-language lists of lowercase button-text fragments, kept in object key
order (the order `for...in` visits them). -/
structure ButtonPatterns where
  accept : List (List String)
  reject : List (List String)
deriving DecidableEq, Repr

/-- `patterns.buttonPatterns[type]` for the two polarity strings the
content script uses; any other index yields no fragments (a `for...in`
over `undefined` iterates zero times). -/
def patternsFor (bp : ButtonPatterns) (ty : String) : List (List String) :=
  if ty = "accept" then bp.accept
  else if ty = "reject" then bp.reject
  else []

/-- Button label used by `findAndClickButton` (content script line 267):
`(button.textContent || button.value || '').toLowerCase().trim()`. -/
def buttonLabel (b : Element) : String :=
  strTrim (strLower (if b.textContent = "" then b.value else b.textContent))

/-- Embedding of `findAndClickButton` (content script lines 250-278),
returning the button it clicks rather than a boolean: the text patterns
of the requested polarity are flattened across languages, and the first
visible button in the container whose label contains one of the
(lower-cased) patterns is clicked.  Absent `buttonPatterns` means an
immediate `false`. -/
def findAndClickButton (buttons : List Element) (bps : Option ButtonPatterns)
    (ty : String) : Option Element :=
  match bps with
  | none => none
  | some bp =>
    let textPatterns := (patternsFor bp ty).flatten
    buttons.find? (fun b =>
      isVisible (some b) && textPatterns.any (fun pat => strIncludes (buttonLabel b) (strLower pat)))

/-- DOM access the actuation layer performs for one detection: the
detected banner's `querySelector`, the document's `querySelector`, and
the list (in document order) returned by the banner's `querySelectorAll`
for clickable elements. -/
structure ActEnv where
  bannerQS : String → Option Element
  docQS : String → Option Element
  bannerButtons : List Element

/-- The lookup of one CMP button selector (content script lines 178-179
and 216-217): `detection.banner.querySelector(selector) ||
document.querySelector(selector)`. -/
def clickTargetQuery (env : ActEnv) (sel : String) : Option Element :=
  match env.bannerQS sel with
  | some b => some b
  | none => env.docQS sel

/-- Observable outcome of `handleAccept` / `handleDeny`: whether a click
happened, which elements were clicked, the `handledAction` values of the
`bannerHandled` notifications sent (content script lines 448-459), and
the detector state afterwards. -/
structure ActOut where
  clicked : Bool
  clicks : List Element
  notified : List String
  st : DetectorState
deriving DecidableEq, Repr

/-- The CMP accept-selector loop of `handleAccept` (content script lines
176-187), returning the first selector hit that exists and is visible. -/
def acceptSelectorHit (env : ActEnv) (detection : DetectionResult) : Option Element :=
  match detection.acceptSelectors with
  | none => none
  | some sels => sels.findSome? (visibleQuery (clickTargetQuery env))

/-- The CMP reject-selector loop of `handleDeny` (content script lines
214-225), returning the first visible hit. -/
def rejectSelectorHit (env : ActEnv) (detection : DetectionResult) : Option Element :=
  match detection.rejectSelectors with
  | none => none
  | some sels => sels.findSome? (visibleQuery (clickTargetQuery env))

/-- Embedding of `handleAccept` (content script lines 170-202): try each
CMP accept selector (banner-scoped, then document-wide; skipping missing
or invisible hits), else fall back to button-text search with polarity
`'accept'`.  On success, `notifyBannerHandled('accept')` is sent and the
detection cache is cleared; on failure nothing happens. -/
def handleAccept (env : ActEnv) (bps : Option ButtonPatterns)
    (detection : DetectionResult) (st : DetectorState) : ActOut :=
  match acceptSelectorHit env detection with
  | some b => { clicked := true, clicks := [b], notified := ["accept"], st := clearCache st }
  | none =>
    match findAndClickButton env.bannerButtons bps "accept" with
    | some b => { clicked := true, clicks := [b], notified := ["accept"], st := clearCache st }
    | none => { clicked := false, clicks := [], notified := [], st := st }

/-- Embedding of `handleDeny` (content script lines 208-242): try each
CMP reject selector, else button-text search with polarity `'reject'`;
on success notify `'deny'` and clear the cache; when no reject control is
found at all, fall back to `handleAccept` on the same detection. -/
def handleDeny (env : ActEnv) (bps : Option ButtonPatterns)
    (detection : DetectionResult) (st : DetectorState) : ActOut :=
  match rejectSelectorHit env detection with
  | some b => { clicked := true, clicks := [b], notified := ["deny"], st := clearCache st }
  | none =>
    match findAndClickButton env.bannerButtons bps "reject" with
    | some b => { clicked := true, clicks := [b], notified := ["deny"], st := clearCache st }
    | none => handleAccept env bps detection st

/-- The popup/background messages the content script's `handleMessage`
dispatches on (content script lines 351-422). -/
inductive PopupMessage where
  | configUpdated
  | manualAccept
  | manualDeny
  | detectBanner
  | unknownAction
deriving DecidableEq, Repr

/-- The structured responses `sendResponse` is called with. -/
inductive MessageResponse where
  | success : MessageResponse
  | failure : String → MessageResponse
  | detectInfo : Bool → Option DetectionResult → MessageResponse
  | errJson : String → MessageResponse
deriving DecidableEq, Repr

/-- Observable outcome of one `handleMessage` dispatch. -/
structure HandlerOut where
  response : MessageResponse
  clicks : List Element
  notified : List String
  st : DetectorState
deriving DecidableEq, Repr

/-- Embedding of `handleMessage` (content script lines 351-422).  The
manual actions call `detector.detect()`; on a null result they wait
300 ms and retry once (`c₂`, `t₂` describe the classifiers and clock at
the retry).  When a banner is found the corresponding handler runs and
the response is `{ success: true }` unconditionally; when both attempts
return null the response is `{ success: false, error: 'No banner
detected' }`.  `detectBanner` responds with the detection; an unknown
action responds `{ error: 'Unknown action' }`. -/
def handleMessage (msg : PopupMessage) (env : ActEnv) (bps : Option ButtonPatterns)
    (c₁ c₂ : CycleOutputs) (t₁ t₂ : Int) (st : DetectorState) : HandlerOut :=
  match msg with
  | .configUpdated => { response := .success, clicks := [], notified := [], st := st }
  | .manualAccept =>
    let first := detect c₁ t₁ st
    match first with
    | (some d, st₁) =>
      let out := handleAccept env bps d st₁
      { response := .success, clicks := out.clicks, notified := out.notified, st := out.st }
    | (none, st₁) =>
      match detect c₂ t₂ st₁ with
      | (some d, st₂) =>
        let out := handleAccept env bps d st₂
        { response := .success, clicks := out.clicks, notified := out.notified, st := out.st }
      | (none, st₂) =>
        { response := .failure "No banner detected", clicks := [], notified := [], st := st₂ }
  | .manualDeny =>
    let first := detect c₁ t₁ st
    match first with
    | (some d, st₁) =>
      let out := handleDeny env bps d st₁
      { response := .success, clicks := out.clicks, notified := out.notified, st := out.st }
    | (none, st₁) =>
      match detect c₂ t₂ st₁ with
      | (some d, st₂) =>
        let out := handleDeny env bps d st₂
        { response := .success, clicks := out.clicks, notified := out.notified, st := out.st }
      | (none, st₂) =>
        { response := .failure "No banner detected", clicks := [], notified := [], st := st₂ }
  | .detectBanner =>
    let r := detect c₁ t₁ st
    { response := .detectInfo r.1.isSome r.1, clicks := [], notified := [], st := r.2 }
  | .unknownAction => { response := .errJson "Unknown action", clicks := [], notified := [], st := st }

/-- A zero-height cookie bar, used to witness the visibility contract. -/
def elZeroHeight : Element :=
  { style := { display := "block", visibility := "visible", opacity := "1" }
    rect := { width := 300, height := 0 }
    textContent := "We use cookies"
    value := "" }

/-- Oracle standing in for the word-boundary regular expression of the
keyword matcher in the concrete witness fixtures: plain substring
containment of the lower-cased keyword. -/
def wbEx (k text : String) : Bool :=
  strIncludes text (strLower k)

/-- The keyword lexicon of the witness fixtures. -/
def kwsEx : List String := ["cookie", "consent", "gdpr"]

/-- A fixed-position overlay whose text hits two lexicon entries. -/
def elOverlay : Element :=
  { style := { display := "block", visibility := "visible", opacity := "1" }
    rect := { width := 400, height := 120 }
    textContent := "This site uses cookie banners. Manage your consent below."
    value := "" }

/-- The result the keyword matcher returns on `elOverlay`. -/
def keywordResultEx : DetectionResult :=
  { type := .keyword
    banner := elOverlay
    confidence := keywordConfidence 2
    matchCount := 2
    matchedKeywords := ["cookie", "consent"] }

/-- The visible banner element of the witness fixture. -/
def elBanner : Element :=
  { style := { display := "block", visibility := "visible", opacity := "1" }
    rect := { width := 600, height := 200 }
    textContent := "We value your privacy"
    value := "" }

/-- Selector lists of the witness known-CMP entry. -/
def selsEx : CMPSelectors :=
  { banner := ["#onetrust-banner-sdk"]
    acceptButton := ["#onetrust-accept-btn-handler"]
    rejectButton := ["#onetrust-reject-all-handler"] }

/-- The witness known-CMP entry. -/
def cmpEx : KnownCMP := { name := "OneTrust", selectors := some selsEx }

/-- Witness document: only the banner selector matches. -/
def qEx : String → Option Element :=
  fun sel => if sel = "#onetrust-banner-sdk" then some elBanner else none

/-- A malformed database entry without a `selectors` object: iterating it
makes `detectKnownCMP` throw. -/
def cmpBroken : KnownCMP := { name := "BrokenCMP", selectors := none }

/-- A detection cycle in which the known-CMP classifier throws on the
malformed entry while the keyword classifier has a perfectly good
result; every other classifier returns null. -/
def runsEx : CycleRuns :=
  { knownCMP := detectKnownCMP qEx (some [cmpBroken])
    aria := .ok none
    keyword := .ok (some keywordResultEx)
    cssPattern := .ok none
    backdrop := .ok none
    generic := .ok none
    shadowDOM := .ok none }

/-- Claim C2 as stated: an error thrown by one classifier is caught at
that classifier's boundary, and `detect()` still returns the best among
the remaining classifiers' results. -/
def classifierFaultClaim : Prop :=
  ∀ e : CycleRuns,
    detectPassRun e = .ok (selectResult (okResults (runList e)).reduceOption)

/-- A fixed-position generic banner fixture. -/
def elGenericBanner : Element :=
  { style := { display := "block", visibility := "visible", opacity := "1" }
    rect := { width := 400, height := 150 }
    textContent := "GDPR notice"
    value := "" }

/-- A banner fixture inside a shadow root. -/
def elShadowBanner : Element :=
  { style := { display := "block", visibility := "visible", opacity := "1" }
    rect := { width := 350, height := 120 }
    textContent := "cookie consent"
    value := "" }

/-- A generic-scorer result whose score is built from one high-value
keyword match (1.5 weighted hits, worth 0.09), one actionable control
(0.08), fixed positioning (0.05) and a preference checkbox (0.08):
0.4 + 0.09 + 0.08 + 0.05 + 0.08 = 0.7. -/
def genericResultEx : DetectionResult :=
  { type := .generic
    banner := elGenericBanner
    confidence := calculateBannerConfidence 1 1 1 0 false true true }

/-- The shadow-DOM matcher's fixed-confidence result. -/
def shadowResultEx : DetectionResult :=
  { type := .shadowDOM
    banner := elShadowBanner
    confidence := 7/10 }

/-- A cycle in which the generic scorer and the shadow-DOM matcher tie at
confidence 0.7 and everything else returns null. -/
def cTieEx : CycleOutputs :=
  { knownCMP := none, aria := none, keyword := none, cssPattern := none,
    backdrop := none, generic := some genericResultEx, shadowDOM := some shadowResultEx }

/-- Claim C1 as stated: on every well-formed cycle with at least one
non-null classifier output, `detect()` returns the output of globally
maximal confidence, with ties broken by the priority order
knownCMP > aria > backdrop > shadowDOM > keyword > generic > cssPattern,
and returns null when every classifier returned null. -/
def aggregatorSpecOrderClaim : Prop :=
  ∀ c : CycleOutputs, WFCycle c →
    (validResults c = [] → detectPass c = none) ∧
    (∀ r, detectPass c = some r →
      r ∈ validResults c ∧
      (∀ x ∈ validResults c, x.confidence ≤ r.confidence) ∧
      (∀ x ∈ validResults c, x.confidence = r.confidence →
        specPriority r.type ≤ specPriority x.type))

/-- A detection result sitting in the cache from an earlier pass. -/
def staleResultEx : DetectionResult := mkKnownCMPResult cmpEx selsEx elBanner

/-- A cycle in which every classifier returns null. -/
def cAllNone : CycleOutputs :=
  { knownCMP := none, aria := none, keyword := none, cssPattern := none,
    backdrop := none, generic := none, shadowDOM := none }

/-- Detector state whose cache slot was written at time 0. -/
def stStaleEx : DetectorState :=
  { cacheSet := true, cacheVal := some staleResultEx, lastDetectionTime := 0 }

/-- Claim C5 as stated: from every detector state, two `detect()` calls
with the second within the 2-second freshness window of the first, and no
intervening DOM change or cache clear, return the identical cached result
(second call = first call's result, detector state untouched). -/
def cacheIdempotenceClaim : Prop :=
  ∀ (c : CycleOutputs) (t₁ t₂ : Int) (st : DetectorState),
    0 ≤ t₂ - t₁ → t₂ - t₁ < cacheTimeout →
    detect c t₂ (detect c t₁ st).2 = ((detect c t₁ st).1, (detect c t₁ st).2)

/-- The visible accept button of the actuation fixtures. -/
def elAcceptBtn : Element :=
  { style := { display := "block", visibility := "visible", opacity := "1" }
    rect := { width := 80, height := 30 }
    textContent := "Accept all"
    value := "" }

/-- Actuation fixture: the detected banner exposes the OneTrust accept
button and nothing else; the document-wide lookup finds nothing. -/
def envEx : ActEnv :=
  { bannerQS := fun sel =>
      if sel = "#onetrust-accept-btn-handler" then some elAcceptBtn else none
    docQS := fun _ => none
    bannerButtons := [elAcceptBtn] }

/-- The detection the actuation fixtures operate on: the known-CMP result
for `cmpEx`. -/
def detEx : DetectionResult := mkKnownCMPResult cmpEx selsEx elBanner

/-- A cycle in which only the known-CMP classifier finds a banner. -/
def cKnownOnly : CycleOutputs :=
  { knownCMP := some detEx, aria := none, keyword := none, cssPattern := none,
    backdrop := none, generic := none, shadowDOM := none }

/-- A page on which no actuatable control exists at all: both selector
lookups come back empty and the banner contains no clickable elements. -/
def envNoButtons : ActEnv :=
  { bannerQS := fun _ => none, docQS := fun _ => none, bannerButtons := [] }

/-- Claim C9 as stated, specialized to its testable core: whenever a
manual actuation command finds a banner on the first detection attempt
but ends up clicking nothing, the handler's response is a structured
not-found failure (and in particular not a success). -/
def manualActuationClaim : Prop :=
  ∀ (env : ActEnv) (bps : Option ButtonPatterns) (c₁ c₂ : CycleOutputs)
    (t₁ t₂ : Int) (st : DetectorState) (msg : PopupMessage),
    (msg = PopupMessage.manualAccept ∨ msg = PopupMessage.manualDeny) →
    (detect c₁ t₁ st).1.isSome = true →
    (handleMessage msg env bps c₁ c₂ t₁ t₂ st).clicks = [] →
    ∃ err, (handleMessage msg env bps c₁ c₂ t₁ t₂ st).response =
      MessageResponse.failure err

theorem confDesc_trans (a b c : DetectionResult) :
    confDesc a b → confDesc b c → confDesc a c := by
  simp only [confDesc, decide_eq_true_eq]
  exact fun h₁ h₂ => le_trans h₂ h₁

theorem confDesc_total (a b : DetectionResult) : confDesc a b || confDesc b a := by
  simp only [confDesc, Bool.or_eq_true, decide_eq_true_eq]
  exact le_total b.confidence a.confidence

/-- The head of the stable descending sort is the first maximal element. -/
theorem selectResult_eq_firstMaxConf (l : List DetectionResult) :
    selectResult l = firstMaxConf l := by
  induction l with
  | nil => simp [selectResult, firstMaxConf]
  | cons a l ih =>
    obtain ⟨l₁, l₂, h₁, h₂, h₃⟩ := List.mergeSort_cons confDesc_trans confDesc_total a l
    have hsel : selectResult (a :: l) = (l₁ ++ a :: l₂).head? := by
      rw [selectResult, h₁]
    have hsel2 : firstMaxConf l = (l₁ ++ l₂).head? := by
      rw [← ih, selectResult, h₂]
    cases l₁ with
    | nil =>
      rw [hsel]
      simp only [List.nil_append, List.head?_cons]
      cases l₂ with
      | nil =>
        have hl : l = [] := by
          have hp := List.mergeSort_perm l confDesc
          rw [h₂] at hp
          simpa using hp.symm.length_eq
        subst hl
        simp [firstMaxConf]
      | cons b t =>
        have hfl : firstMaxConf l = some b := by
          rw [hsel2]; simp
        have hsorted := List.sorted_mergeSort confDesc_trans confDesc_total (a :: l)
        rw [h₁] at hsorted
        simp only [List.nil_append] at hsorted
        have hab : confDesc a b := (List.pairwise_cons.mp hsorted).1 b (by simp)
        simp only [confDesc, decide_eq_true_eq] at hab
        simp only [firstMaxConf, hfl]
        rw [if_neg (not_lt.mpr hab)]
    | cons c t =>
      rw [hsel]
      simp only [List.cons_append, List.head?_cons]
      have hfl : firstMaxConf l = some c := by
        rw [hsel2]; simp
      have hac : a.confidence < c.confidence := by
        have h3c := h₃ c (by simp)
        simp only [confDesc, Bool.not_eq_true', decide_eq_false_iff_not, not_le] at h3c
        exact h3c
      simp only [firstMaxConf, hfl]
      rw [if_pos hac]

theorem firstMaxConf_eq_none_iff (l : List DetectionResult) :
    firstMaxConf l = none ↔ l = [] := by
  induction l with
  | nil => simp [firstMaxConf]
  | cons a l ih =>
    simp only [firstMaxConf]
    cases h : firstMaxConf l with
    | none => simp
    | some b =>
      constructor
      · intro hcontra
        by_cases hb : b.confidence > a.confidence <;> simp [hb] at hcontra
      · intro hcontra
        exact absurd hcontra (List.cons_ne_nil a l)

theorem firstMaxConf_mem : ∀ {l : List DetectionResult} {b : DetectionResult},
    firstMaxConf l = some b → b ∈ l := by
  intro l
  induction l with
  | nil => intro b h; simp [firstMaxConf] at h
  | cons a l ih =>
    intro b h
    cases hl : firstMaxConf l with
    | none =>
      simp only [firstMaxConf, hl] at h
      obtain rfl : a = b := by simpa using h
      simp
    | some c =>
      simp only [firstMaxConf, hl] at h
      by_cases hc : c.confidence > a.confidence
      · rw [if_pos hc] at h
        obtain rfl : c = b := by simpa using h
        exact List.mem_cons_of_mem a (ih hl)
      · rw [if_neg hc] at h
        obtain rfl : a = b := by simpa using h
        exact List.mem_cons_self a l

theorem firstMaxConf_is_max : ∀ {l : List DetectionResult} {b : DetectionResult},
    firstMaxConf l = some b → ∀ x ∈ l, x.confidence ≤ b.confidence := by
  intro l
  induction l with
  | nil => intro b h; simp [firstMaxConf] at h
  | cons a l ih =>
    intro b h
    cases hl : firstMaxConf l with
    | none =>
      simp only [firstMaxConf, hl] at h
      obtain rfl : a = b := by simpa using h
      have : l = [] := (firstMaxConf_eq_none_iff l).mp hl
      subst this
      simp
    | some c =>
      simp only [firstMaxConf, hl] at h
      by_cases hc : c.confidence > a.confidence
      · rw [if_pos hc] at h
        obtain rfl : c = b := by simpa using h
        intro x hx
        rcases List.mem_cons.mp hx with rfl | hx
        · exact le_of_lt hc
        · exact ih hl x hx
      · rw [if_neg hc] at h
        obtain rfl : a = b := by simpa using h
        intro x hx
        rcases List.mem_cons.mp hx with rfl | hx
        · exact le_refl _
        · exact le_trans (ih hl x hx) (not_lt.mp hc)

/-- The element `firstMaxConf` returns is the first one attaining the
maximum: everything before it in the list is strictly less confident. -/
theorem firstMaxConf_first : ∀ {l : List DetectionResult} {b : DetectionResult},
    firstMaxConf l = some b →
    ∃ l₁ l₂, l = l₁ ++ b :: l₂ ∧ ∀ x ∈ l₁, x.confidence < b.confidence := by
  intro l
  induction l with
  | nil => intro b h; simp [firstMaxConf] at h
  | cons a l ih =>
    intro b h
    cases hl : firstMaxConf l with
    | none =>
      simp only [firstMaxConf, hl] at h
      obtain rfl : a = b := by simpa using h
      exact ⟨[], l, by simp⟩
    | some c =>
      simp only [firstMaxConf, hl] at h
      by_cases hc : c.confidence > a.confidence
      · rw [if_pos hc] at h
        obtain rfl : c = b := by simpa using h
        obtain ⟨l₁, l₂, rfl, hlt⟩ := ih hl
        refine ⟨a :: l₁, l₂, rfl, ?_⟩
        intro x hx
        rcases List.mem_cons.mp hx with rfl | hx
        · exact hc
        · exact hlt x hx
      · rw [if_neg hc] at h
        obtain rfl : a = b := by simpa using h
        exact ⟨[], l, rfl, by simp⟩

/-- Lifting a pairwise relation through the null filter: if every pair of
slots is related whenever both are non-null, the filtered list is
pairwise related. -/
theorem pairwise_reduceOption {α : Type} {P : α → α → Prop} :
    ∀ {l : List (Option α)},
      l.Pairwise (fun x y => ∀ a, x = some a → ∀ b, y = some b → P a b) →
      l.reduceOption.Pairwise P := by
  intro l h
  induction l with
  | nil => simp [List.reduceOption_nil]
  | cons x l ih =>
    rcases List.pairwise_cons.mp h with ⟨hx, hl⟩
    cases x with
    | none => simpa [List.reduceOption_cons_of_none] using ih hl
    | some a =>
      rw [List.reduceOption_cons_of_some]
      refine List.pairwise_cons.mpr ⟨?_, ih hl⟩
      intro b hb
      exact hx (some b) (List.reduceOption_mem_iff.mp hb) a rfl b rfl

/-- In a well-formed cycle the valid-results list is strictly ordered by
the classifiers' array positions: every element appearing later comes
from a strictly later slot of the `detectionResults` array. -/
theorem validResults_pairwise_priority (c : CycleOutputs) (h : WFCycle c) :
    (validResults c).Pairwise (fun a b => codePriority a.type < codePriority b.type) := by
  obtain ⟨h₀, h₁, h₂, h₃, h₄, h₅, h₆⟩ := h
  apply pairwise_reduceOption
  unfold cycleList
  refine List.pairwise_cons.mpr ⟨?_, List.pairwise_cons.mpr ⟨?_,
    List.pairwise_cons.mpr ⟨?_, List.pairwise_cons.mpr ⟨?_,
    List.pairwise_cons.mpr ⟨?_, List.pairwise_cons.mpr ⟨?_,
    List.pairwise_cons.mpr ⟨?_, List.Pairwise.nil⟩⟩⟩⟩⟩⟩⟩
  · intro y hy
    simp only [List.mem_cons, List.not_mem_nil, or_false] at hy
    intro a ha b hb
    rcases hy with rfl | rfl | rfl | rfl | rfl | rfl
    · rw [(h₀ a ha).1, (h₁ b hb).1]; decide
    · rw [(h₀ a ha).1, (h₂ b hb).1]; decide
    · rw [(h₀ a ha).1, (h₃ b hb).1]; decide
    · rw [(h₀ a ha).1, (h₄ b hb).1]; decide
    · rw [(h₀ a ha).1, (h₅ b hb).1]; decide
    · rw [(h₀ a ha).1, (h₆ b hb).1]; decide
  · intro y hy
    simp only [List.mem_cons, List.not_mem_nil, or_false] at hy
    intro a ha b hb
    rcases hy with rfl | rfl | rfl | rfl | rfl
    · rw [(h₁ a ha).1, (h₂ b hb).1]; decide
    · rw [(h₁ a ha).1, (h₃ b hb).1]; decide
    · rw [(h₁ a ha).1, (h₄ b hb).1]; decide
    · rw [(h₁ a ha).1, (h₅ b hb).1]; decide
    · rw [(h₁ a ha).1, (h₆ b hb).1]; decide
  · intro y hy
    simp only [List.mem_cons, List.not_mem_nil, or_false] at hy
    intro a ha b hb
    rcases hy with rfl | rfl | rfl | rfl
    · rw [(h₂ a ha).1, (h₃ b hb).1]; decide
    · rw [(h₂ a ha).1, (h₄ b hb).1]; decide
    · rw [(h₂ a ha).1, (h₅ b hb).1]; decide
    · rw [(h₂ a ha).1, (h₆ b hb).1]; decide
  · intro y hy
    simp only [List.mem_cons, List.not_mem_nil, or_false] at hy
    intro a ha b hb
    rcases hy with rfl | rfl | rfl
    · rw [(h₃ a ha).1, (h₄ b hb).1]; decide
    · rw [(h₃ a ha).1, (h₅ b hb).1]; decide
    · rw [(h₃ a ha).1, (h₆ b hb).1]; decide
  · intro y hy
    simp only [List.mem_cons, List.not_mem_nil, or_false] at hy
    intro a ha b hb
    rcases hy with rfl | rfl
    · rw [(h₄ a ha).1, (h₅ b hb).1]; decide
    · rw [(h₄ a ha).1, (h₆ b hb).1]; decide
  · intro y hy
    simp only [List.mem_cons, List.not_mem_nil, or_false] at hy
    intro a ha b hb
    subst hy
    rw [(h₅ a ha).1, (h₆ b hb).1]; decide
  · intro y hy
    exact absurd hy (List.not_mem_nil y)

theorem evalArrayLiteral_eq_error {α : Type} :
    ∀ (l : List (Except String α)) (err : String),
      firstThrow l = some err → evalArrayLiteral l = .error err := by
  intro l
  induction l with
  | nil => intro err h; simp [firstThrow] at h
  | cons x xs ih =>
    intro err h
    cases x with
    | error e =>
      simp only [firstThrow, Option.some.injEq] at h
      subst h
      rfl
    | ok a =>
      simp only [firstThrow] at h
      simp only [evalArrayLiteral, ih err h]

theorem evalArrayLiteral_eq_ok {α : Type} :
    ∀ (l : List (Except String α)),
      firstThrow l = none → evalArrayLiteral l = .ok (okResults l) := by
  intro l
  induction l with
  | nil => intro _; rfl
  | cons x xs ih =>
    intro h
    cases x with
    | error e => simp [firstThrow] at h
    | ok a =>
      simp only [firstThrow] at h
      simp only [evalArrayLiteral, okResults, ih h]

/-- C7: for every DOM element, `isVisible` returns false exactly when the
computed display is `none`, or the computed visibility is `hidden`, or
the computed opacity serializes to `"0"` (exactly zero), or the rendered
bounding box has zero width or zero height; otherwise it returns true.
Purity holds by construction: the embedding is a function of the element
alone and touches no detector state.  The hypotheses reflect that
`getBoundingClientRect` never reports negative sizes. -/
theorem isVisible_false_iff (el : Element)
    (hw : 0 ≤ el.rect.width) (hh : 0 ≤ el.rect.height) :
    isVisible (some el) = false ↔
      (el.style.display = "none" ∨ el.style.visibility = "hidden" ∨
       el.style.opacity = "0" ∨ el.rect.width = 0 ∨ el.rect.height = 0) := by
  unfold isVisible
  dsimp only
  by_cases hstyle : el.style.display = "none" ∨ el.style.visibility = "hidden" ∨
      el.style.opacity = "0"
  · rw [if_pos hstyle]
    exact iff_of_true rfl (by tauto)
  · rw [if_neg hstyle]
    push_neg at hstyle
    obtain ⟨hd, hv, ho⟩ := hstyle
    simp only [hd, hv, ho, false_or, Bool.and_eq_false_iff, decide_eq_false_iff_not, not_lt]
    constructor
    · rintro (h1 | h2)
      · exact Or.inl (le_antisymm h1 hw)
      · exact Or.inr (le_antisymm h2 hh)
    · rintro (h1 | h2)
      · exact Or.inl (le_of_eq h1)
      · exact Or.inr (le_of_eq h2)

/-- Witness for `isVisible_false_iff` at a concrete element with a
zero-height box. -/
theorem isVisible_false_iff_witness :
    (0 ≤ elZeroHeight.rect.width ∧ 0 ≤ elZeroHeight.rect.height) ∧
      (isVisible (some elZeroHeight) = false ↔
        (elZeroHeight.style.display = "none" ∨
         elZeroHeight.style.visibility = "hidden" ∨
         elZeroHeight.style.opacity = "0" ∨
         elZeroHeight.rect.width = 0 ∨ elZeroHeight.rect.height = 0)) :=
  ⟨⟨by norm_num [elZeroHeight], by norm_num [elZeroHeight]⟩,
    isVisible_false_iff elZeroHeight (by norm_num [elZeroHeight])
      (by norm_num [elZeroHeight])⟩

/-- C3: every result the keyword matcher returns carries confidence
`min(0.7 + 0.05 * matchCount, 0.9)` for its own hit count, which is at
least 2; the formula is monotonically non-decreasing in the hit count and
never exceeds 0.9. -/
theorem detectByKeywords_confidence_contract (wb : String → String → Bool)
    (kws : List String) (overlays : List Element) :
    (∀ r, detectByKeywords wb (some kws) overlays = some r →
      r.confidence = min (7/10 + (r.matchCount : ℚ) * (5/100)) (9/10) ∧ 2 ≤ r.matchCount) ∧
    (∀ m n : Nat, m ≤ n → keywordConfidence m ≤ keywordConfidence n) ∧
    (∀ m : Nat, keywordConfidence m ≤ 9/10) := by
  refine ⟨?_, ?_, fun m => min_le_right _ _⟩
  · intro r hr
    rw [detectByKeywords] at hr
    induction overlays with
    | nil => simp [detectByKeywordsGo] at hr
    | cons overlay rest ih =>
      rw [detectByKeywordsGo] at hr
      by_cases hm : 2 ≤ countKeywordHits wb kws (overlayText overlay)
      · rw [if_pos hm] at hr
        obtain rfl : _ = r := Option.some.inj hr
        exact ⟨rfl, hm⟩
      · rw [if_neg hm] at hr
        exact ih hr
  · intro m n hmn
    unfold keywordConfidence
    refine min_le_min (add_le_add_left ?_ _) le_rfl
    have hc : (m : ℚ) ≤ (n : ℚ) := by exact_mod_cast hmn
    nlinarith

/-- Witness for the keyword-confidence contract: on a concrete overlay
with two hits the matcher returns `keywordResultEx` and the contract
instantiates to it. -/
theorem detectByKeywords_confidence_witness :
    detectByKeywords wbEx (some kwsEx) [elOverlay] = some keywordResultEx ∧
      (keywordResultEx.confidence =
        min (7/10 + (keywordResultEx.matchCount : ℚ) * (5/100)) (9/10) ∧
       2 ≤ keywordResultEx.matchCount) :=
  ⟨by rfl,
   (detectByKeywords_confidence_contract wbEx kwsEx [elOverlay]).1 keywordResultEx (by rfl)⟩

theorem detectKnownCMPgo_ok_none_iff (q : String → Option Element) :
    ∀ (cmps : List KnownCMP), (∀ cmp ∈ cmps, cmp.selectors ≠ none) →
      (detectKnownCMPgo q cmps = .ok none ↔
        ∀ cmp ∈ cmps, ∀ sels, cmp.selectors = some sels →
          findBannerEl q sels.banner = none) := by
  intro cmps
  induction cmps with
  | nil => intro _; simp [detectKnownCMPgo]
  | cons cmp rest ih =>
    intro hwf
    cases hsel : cmp.selectors with
    | none => exact absurd hsel (hwf cmp (List.mem_cons_self _ _))
    | some sels =>
      simp only [detectKnownCMPgo, hsel]
      cases hfb : findBannerEl q sels.banner with
      | some b =>
        constructor
        · intro hcontra; exact absurd hcontra (by simp)
        · intro hall
          have := hall cmp (by simp) sels hsel
          rw [this] at hfb
          exact absurd hfb (by simp)
      | none =>
        rw [ih (fun c hc => hwf c (List.mem_cons_of_mem _ hc))]
        constructor
        · intro hall c hc s hs
          rcases List.mem_cons.mp hc with rfl | hc
          · obtain rfl : sels = s := by
              rw [hsel] at hs
              exact Option.some.inj hs
            exact hfb
          · exact hall c hc s hs
        · intro hall c hc s hs
          exact hall c (List.mem_cons_of_mem _ hc) s hs

theorem detectKnownCMPgo_ok_some (q : String → Option Element) :
    ∀ (cmps : List KnownCMP) (r : DetectionResult),
      detectKnownCMPgo q cmps = .ok (some r) →
      ∃ pre cmp post sels, cmps = pre ++ cmp :: post ∧ cmp.selectors = some sels ∧
        findBannerEl q sels.banner = some r.banner ∧
        r = mkKnownCMPResult cmp sels r.banner ∧
        ∀ c ∈ pre, ∀ s, c.selectors = some s → findBannerEl q s.banner = none := by
  intro cmps
  induction cmps with
  | nil => intro r h; simp [detectKnownCMPgo] at h
  | cons cmp rest ih =>
    intro r h
    cases hsel : cmp.selectors with
    | none => simp [detectKnownCMPgo, hsel] at h
    | some sels =>
      simp only [detectKnownCMPgo, hsel] at h
      cases hfb : findBannerEl q sels.banner with
      | some b =>
        rw [hfb] at h
        obtain rfl : mkKnownCMPResult cmp sels b = r := by simpa using h
        exact ⟨[], cmp, rest, sels, by simp, hsel, hfb, rfl, by simp⟩
      | none =>
        rw [hfb] at h
        obtain ⟨pre, c, post, s, rfl, hcsel, hfb2, hr, hpre⟩ := ih r h
        refine ⟨cmp :: pre, c, post, s, rfl, hcsel, hfb2, hr, ?_⟩
        intro c' hc' s' hs'
        rcases List.mem_cons.mp hc' with rfl | hc'
        · obtain rfl : sels = s' := by
            rw [hsel] at hs'
            exact Option.some.inj hs'
          exact hfb
        · exact hpre c' hc' s' hs'

theorem findBannerEl_first (q : String → Option Element) (sels : List String)
    (b : Element) (h : findBannerEl q sels = some b) :
    ∃ s₁ sel s₂, sels = s₁ ++ sel :: s₂ ∧ (∀ s ∈ s₁, visibleQuery q s = none) ∧
      visibleQuery q sel = some b ∧ isVisible (some b) = true := by
  rw [findBannerEl, List.findSome?_eq_some_iff] at h
  obtain ⟨s₁, sel, s₂, rfl, hhit, hnone⟩ := h
  refine ⟨s₁, sel, s₂, rfl, hnone, hhit, ?_⟩
  simp only [visibleQuery] at hhit
  cases hq : q sel with
  | none => rw [hq] at hhit; simp at hhit
  | some e =>
    simp only [hq] at hhit
    by_cases hv : isVisible (some e) = true
    · rw [if_pos hv] at hhit
      obtain rfl : e = b := Option.some.inj hhit
      exact hv
    · rw [if_neg hv] at hhit
      simp at hhit

/-- C4: the known-CMP matcher iterates the database in stored order,
testing each entry's banner selectors against the document; it returns
null exactly when no entry has a visible banner-selector match, and
otherwise returns the first visible match as a `knownCMP` result with
confidence exactly 0.95 and the matching entry's accept- and
reject-button selector lists attached; within the winning entry the
banner is the hit of the first matching selector, and every earlier
entry matched nothing.  The hypothesis restricts to well-formed database
entries (a malformed entry instead throws, see the error model). -/
theorem detectKnownCMP_contract (q : String → Option Element) (cmps : List KnownCMP)
    (hwf : ∀ cmp ∈ cmps, cmp.selectors ≠ none) :
    (detectKnownCMP q (some cmps) = .ok none ↔
      ∀ cmp ∈ cmps, ∀ sels, cmp.selectors = some sels →
        findBannerEl q sels.banner = none) ∧
    (∀ r, detectKnownCMP q (some cmps) = .ok (some r) →
      r.type = .knownCMP ∧ r.confidence = 95/100 ∧
      ∃ pre cmp post sels,
        cmps = pre ++ cmp :: post ∧ cmp.selectors = some sels ∧
        r.cmpName = some cmp.name ∧
        r.acceptSelectors = some sels.acceptButton ∧
        r.rejectSelectors = some sels.rejectButton ∧
        findBannerEl q sels.banner = some r.banner ∧
        isVisible (some r.banner) = true ∧
        (∃ s₁ sel s₂, sels.banner = s₁ ++ sel :: s₂ ∧
          (∀ s ∈ s₁, visibleQuery q s = none) ∧ visibleQuery q sel = some r.banner) ∧
        (∀ c ∈ pre, ∀ s, c.selectors = some s → findBannerEl q s.banner = none)) := by
  constructor
  · exact detectKnownCMPgo_ok_none_iff q cmps hwf
  · intro r h
    obtain ⟨pre, cmp, post, sels, rfl, hsel, hfb, hr, hpre⟩ :=
      detectKnownCMPgo_ok_some q _ r h
    obtain ⟨s₁, sel, s₂, hba, hnone, hhit, hvis⟩ :=
      findBannerEl_first q sels.banner r.banner hfb
    exact ⟨by rw [hr]; rfl, by rw [hr]; rfl, pre, cmp, post, sels, rfl, hsel,
      by rw [hr]; rfl, by rw [hr]; rfl, by rw [hr]; rfl, hfb, hvis,
      ⟨s₁, sel, s₂, hba, hnone, hhit⟩, hpre⟩

/-- Witness for the known-CMP contract at a one-entry database whose
banner selector hits a visible element. -/
theorem detectKnownCMP_contract_witness :
    (∀ cmp ∈ [cmpEx], cmp.selectors ≠ none) ∧
    ((detectKnownCMP qEx (some [cmpEx]) = .ok none ↔
      ∀ cmp ∈ [cmpEx], ∀ sels, cmp.selectors = some sels →
        findBannerEl qEx sels.banner = none) ∧
    (∀ r, detectKnownCMP qEx (some [cmpEx]) = .ok (some r) →
      r.type = .knownCMP ∧ r.confidence = 95/100 ∧
      ∃ pre cmp post sels,
        [cmpEx] = pre ++ cmp :: post ∧ cmp.selectors = some sels ∧
        r.cmpName = some cmp.name ∧
        r.acceptSelectors = some sels.acceptButton ∧
        r.rejectSelectors = some sels.rejectButton ∧
        findBannerEl qEx sels.banner = some r.banner ∧
        isVisible (some r.banner) = true ∧
        (∃ s₁ sel s₂, sels.banner = s₁ ++ sel :: s₂ ∧
          (∀ s ∈ s₁, visibleQuery qEx s = none) ∧ visibleQuery qEx sel = some r.banner) ∧
        (∀ c ∈ pre, ∀ s, c.selectors = some s → findBannerEl qEx s.banner = none))) :=
  ⟨by simp [cmpEx], detectKnownCMP_contract qEx [cmpEx] (by simp [cmpEx])⟩

/-- C2 counterexample: with a malformed known-CMP entry the known-CMP
classifier throws, and `detect()` propagates the `TypeError` instead of
returning the keyword classifier's result — there is no per-classifier
exception handler in detector.js lines 43-51. -/
theorem classifierFaultClaim_false : ¬ classifierFaultClaim := by
  intro h
  have hx := h runsEx
  have hrun : detectPassRun runsEx = .error "TypeError: cannot read banner of undefined" := rfl
  rw [hrun] at hx
  exact absurd hx (by simp)

/-- C2 (amended): an exception raised by a classifier is not caught
inside `detect()`: the first classifier exception propagates out of the
whole detection pass and no aggregation happens; only when no classifier
throws does `detect()` aggregate all returned results.  (The callers —
`detectAndProcess` and `handleMessage` — catch the escaped error at their
own boundary.) -/
theorem detectPassRun_first_throw (e : CycleRuns) :
    (∀ err, firstThrow (runList e) = some err → detectPassRun e = .error err) ∧
    (firstThrow (runList e) = none →
      detectPassRun e = .ok (selectResult (okResults (runList e)).reduceOption)) := by
  constructor
  · intro err h
    have h2 := evalArrayLiteral_eq_error (runList e) err h
    simp only [detectPassRun, h2]
  · intro h
    have h2 := evalArrayLiteral_eq_ok (runList e) h
    simp only [detectPassRun, h2]

/-- Witness for the error-propagation theorem at the concrete faulty
cycle. -/
theorem detectPassRun_first_throw_witness :
    firstThrow (runList runsEx) = some "TypeError: cannot read banner of undefined" ∧
    detectPassRun runsEx = .error "TypeError: cannot read banner of undefined" :=
  ⟨rfl, (detectPassRun_first_throw runsEx).1 "TypeError: cannot read banner of undefined" rfl⟩

theorem genericConfEx : calculateBannerConfidence 1 1 1 0 false true true = 7/10 := by
  norm_num [calculateBannerConfidence, min_def]

theorem wf_cTieEx : WFCycle cTieEx := by
  refine ⟨?_, ?_, ?_, ?_, ?_, ?_, ?_⟩ <;> intro r hr
  · exact absurd hr (by simp [cTieEx])
  · exact absurd hr (by simp [cTieEx])
  · exact absurd hr (by simp [cTieEx])
  · exact absurd hr (by simp [cTieEx])
  · exact absurd hr (by simp [cTieEx])
  · obtain rfl : genericResultEx = r := by simpa [cTieEx] using hr
    refine ⟨rfl, Or.inr ⟨1, 1, 1, 0, false, true, true, le_refl 1, rfl, ?_⟩⟩
    rw [show genericResultEx.confidence =
      calculateBannerConfidence 1 1 1 0 false true true from rfl, genericConfEx]
    norm_num
  · obtain rfl : shadowResultEx = r := by simpa [cTieEx] using hr
    exact ⟨rfl, rfl⟩

theorem detectPass_cTieEx : detectPass cTieEx = some genericResultEx := by
  rw [detectPass, selectResult_eq_firstMaxConf,
    show validResults cTieEx = [genericResultEx, shadowResultEx] from rfl]
  simp only [firstMaxConf]
  rw [if_neg]
  rw [show genericResultEx.confidence =
    calculateBannerConfidence 1 1 1 0 false true true from rfl, genericConfEx,
    show shadowResultEx.confidence = 7/10 from rfl]
  norm_num

/-- C1 counterexample: in the reachable cycle `cTieEx` the generic scorer
and the shadow-DOM matcher tie at confidence 0.7; the stable sort keeps
the array order of detector.js lines 43-51, so `detect()` returns the
generic result, while the claimed priority order demands the shadow-DOM
result (shadowDOM > generic in the spec's order). -/
theorem aggregatorSpecOrderClaim_false : ¬ aggregatorSpecOrderClaim := by
  intro hclaim
  obtain ⟨-, hsome⟩ := hclaim cTieEx wf_cTieEx
  obtain ⟨-, -, htie⟩ := hsome genericResultEx detectPass_cTieEx
  have hmem : shadowResultEx ∈ validResults cTieEx := by
    rw [show validResults cTieEx = [genericResultEx, shadowResultEx] from rfl]
    simp
  have hconf : shadowResultEx.confidence = genericResultEx.confidence := by
    rw [show genericResultEx.confidence =
      calculateBannerConfidence 1 1 1 0 false true true from rfl, genericConfEx]
    rfl
  have hle := htie shadowResultEx hmem hconf
  rw [show genericResultEx.type = ClassifierType.generic from rfl,
    show shadowResultEx.type = ClassifierType.shadowDOM from rfl] at hle
  simp only [specPriority] at hle
  exact absurd hle (by decide)

/-- C1 (amended): on every well-formed cycle `detect()` returns null
exactly when every classifier returned null, and otherwise returns the
single output of globally maximal confidence, with ties on confidence
broken by the classifiers' invocation order
knownCMP > aria > keyword > cssPattern > backdrop > generic > shadowDOM
(the array order of detector.js lines 43-51, which the stable sort
preserves) — not by the order the spec states. -/
theorem detectPass_contract (c : CycleOutputs) (h : WFCycle c) :
    (detectPass c = none ↔ validResults c = []) ∧
    (∀ r, detectPass c = some r →
      r ∈ validResults c ∧
      (∀ x ∈ validResults c, x.confidence ≤ r.confidence) ∧
      (∀ x ∈ validResults c, x.confidence = r.confidence →
        codePriority r.type ≤ codePriority x.type)) := by
  constructor
  · rw [detectPass, selectResult_eq_firstMaxConf]
    exact firstMaxConf_eq_none_iff _
  · intro r hr
    rw [detectPass, selectResult_eq_firstMaxConf] at hr
    refine ⟨firstMaxConf_mem hr, firstMaxConf_is_max hr, ?_⟩
    intro x hx hconf
    obtain ⟨l₁, l₂, hsplit, hlt⟩ := firstMaxConf_first hr
    have hpw := validResults_pairwise_priority c h
    rw [hsplit] at hpw hx
    rcases List.mem_append.mp hx with hx1 | hx2
    · exact absurd hconf (ne_of_lt (hlt x hx1))
    · rcases List.mem_cons.mp hx2 with rfl | hx3
      · exact le_refl _
      · have hcross := (List.pairwise_cons.mp (List.pairwise_append.mp hpw).2.1).1
        exact le_of_lt (hcross x hx3)

/-- Witness for the amended aggregation contract at the concrete tied
cycle. -/
theorem detectPass_contract_witness :
    WFCycle cTieEx ∧
    ((detectPass cTieEx = none ↔ validResults cTieEx = []) ∧
    (∀ r, detectPass cTieEx = some r →
      r ∈ validResults cTieEx ∧
      (∀ x ∈ validResults cTieEx, x.confidence ≤ r.confidence) ∧
      (∀ x ∈ validResults cTieEx, x.confidence = r.confidence →
        codePriority r.type ≤ codePriority x.type))) :=
  ⟨wf_cTieEx, detectPass_contract cTieEx wf_cTieEx⟩

theorem detect_hit_stStaleEx :
    detect cAllNone 1999 stStaleEx = (some staleResultEx, stStaleEx) := by
  rw [detect, if_pos]
  · rfl
  · exact ⟨rfl, by norm_num [stStaleEx, cacheTimeout]⟩

theorem detectPass_cAllNone : detectPass cAllNone = none := by
  rw [detectPass, selectResult_eq_firstMaxConf]
  rfl

theorem detect_miss_stStaleEx :
    detect cAllNone 2001 stStaleEx =
      (none, { cacheSet := true, cacheVal := none, lastDetectionTime := 2001 }) := by
  rw [detect, if_neg]
  · simp only [detectPass_cAllNone]
  · intro hcontra
    have := hcontra.2
    norm_num [stStaleEx, cacheTimeout] at this

/-- C5 counterexample: the freshness window is anchored at the cache
write time (`lastDetectionTime`), not at the previous call.  Starting
from a state cached at time 0, a first call at t=1999 is a cache hit
(returning the stale result and leaving `lastDetectionTime` at 0), and a
second call only 2 ms later, at t=2001, falls outside the window and
recomputes — here returning null instead of the cached result. -/
theorem cacheIdempotenceClaim_false : ¬ cacheIdempotenceClaim := by
  intro h
  have hx := h cAllNone 1999 2001 stStaleEx (by norm_num) (by norm_num [cacheTimeout])
  rw [detect_hit_stStaleEx] at hx
  simp only at hx
  rw [detect_miss_stStaleEx] at hx
  simp [stStaleEx] at hx

theorem detect_cache_hit (c : CycleOutputs) (now : Int) (st : DetectorState)
    (h1 : st.cacheSet = true) (h2 : now - st.lastDetectionTime < cacheTimeout) :
    detect c now st = (st.cacheVal, st) := by
  rw [detect, if_pos ⟨h1, h2⟩]

theorem detect_cache_after (c : CycleOutputs) (t : Int) (st : DetectorState) :
    (detect c t st).2.cacheSet = true ∧ (detect c t st).2.cacheVal = (detect c t st).1 := by
  rw [detect]
  by_cases hcond : st.cacheSet = true ∧ t - st.lastDetectionTime < cacheTimeout
  · rw [if_pos hcond]
    exact ⟨hcond.1, rfl⟩
  · rw [if_neg hcond]
    exact ⟨rfl, rfl⟩

/-- C5 (amended): a second `detect()` call within the freshness window of
the cache's write timestamp (which equals the first call's time whenever
the first call recomputed, but stays older if the first call itself hit
the cache) returns exactly the stored cache value and leaves the detector
state untouched — regardless of what the classifiers would now return, so
nothing is recomputed. -/
theorem detect_second_call_cached (c c' : CycleOutputs) (t₁ t₂ : Int) (st : DetectorState)
    (h : t₂ - (detect c t₁ st).2.lastDetectionTime < cacheTimeout) :
    detect c' t₂ (detect c t₁ st).2 = ((detect c t₁ st).1, (detect c t₁ st).2) := by
  obtain ⟨hset, hval⟩ := detect_cache_after c t₁ st
  rw [detect_cache_hit c' t₂ _ hset h, hval]

theorem detect_lastTime_initial :
    (detect cAllNone 1000 initialState).2.lastDetectionTime = 1000 := by
  rw [detect, if_neg]
  intro hcontra
  exact absurd hcontra.1 (by simp [initialState])

/-- Witness for the amended cache law: a miss at t=1000 followed by a
call at t=1500 returns the cached value untouched. -/
theorem detect_second_call_cached_witness :
    (1500 - (detect cAllNone 1000 initialState).2.lastDetectionTime < cacheTimeout) ∧
    detect cAllNone 1500 (detect cAllNone 1000 initialState).2 =
      ((detect cAllNone 1000 initialState).1, (detect cAllNone 1000 initialState).2) :=
  ⟨by rw [detect_lastTime_initial]; norm_num [cacheTimeout],
   detect_second_call_cached cAllNone cAllNone 1000 1500 initialState
     (by rw [detect_lastTime_initial]; norm_num [cacheTimeout])⟩

theorem detect_after_clearCache (c : CycleOutputs) (now : Int) (st : DetectorState) :
    detect c now (clearCache st) =
      (detectPass c, { cacheSet := true, cacheVal := detectPass c, lastDetectionTime := now }) := by
  rw [detect, if_neg]
  intro hcontra
  exact absurd hcontra.1 (by simp [clearCache])

theorem handleAccept_clicked_state (env : ActEnv) (bps : Option ButtonPatterns)
    (detection : DetectionResult) (st : DetectorState) :
    (handleAccept env bps detection st).clicked = true →
    (handleAccept env bps detection st).st = clearCache st ∧
    (handleAccept env bps detection st).notified = ["accept"] := by
  unfold handleAccept
  cases hsel : acceptSelectorHit env detection with
  | some b => intro _; exact ⟨rfl, rfl⟩
  | none =>
    cases hbtn : findAndClickButton env.bannerButtons bps "accept" with
    | some b => intro _; exact ⟨rfl, rfl⟩
    | none => intro hcontra; simp at hcontra

theorem handleDeny_clicked_state (env : ActEnv) (bps : Option ButtonPatterns)
    (detection : DetectionResult) (st : DetectorState) :
    (handleDeny env bps detection st).clicked = true →
    (handleDeny env bps detection st).st = clearCache st := by
  unfold handleDeny
  cases hsel : rejectSelectorHit env detection with
  | some b => intro _; rfl
  | none =>
    cases hbtn : findAndClickButton env.bannerButtons bps "reject" with
    | some b => intro _; rfl
    | none => exact fun h => (handleAccept_clicked_state env bps detection st h).1

/-- C6: after every successful actuation — an accept or deny click that
succeeded — the handler clears the detection cache, and the next
`detect()` call therefore recomputes the pass from the classifiers at
any time whatsoever. -/
theorem actuation_clears_cache (env : ActEnv) (bps : Option ButtonPatterns)
    (detection : DetectionResult) (st : DetectorState) :
    ((handleAccept env bps detection st).clicked = true →
      (handleAccept env bps detection st).st = clearCache st ∧
      ∀ c now, detect c now (handleAccept env bps detection st).st =
        (detectPass c,
         { cacheSet := true, cacheVal := detectPass c, lastDetectionTime := now })) ∧
    ((handleDeny env bps detection st).clicked = true →
      (handleDeny env bps detection st).st = clearCache st ∧
      ∀ c now, detect c now (handleDeny env bps detection st).st =
        (detectPass c,
         { cacheSet := true, cacheVal := detectPass c, lastDetectionTime := now })) := by
  constructor
  · intro h
    obtain ⟨hst, -⟩ := handleAccept_clicked_state env bps detection st h
    exact ⟨hst, fun c now => by rw [hst, detect_after_clearCache]⟩
  · intro h
    have hst := handleDeny_clicked_state env bps detection st h
    exact ⟨hst, fun c now => by rw [hst, detect_after_clearCache]⟩

/-- Witness for the cache-clearing law: on the concrete fixture the
accept click succeeds, the cache is cleared and any later `detect()`
recomputes. -/
theorem actuation_clears_cache_witness :
    (handleAccept envEx none detEx initialState).clicked = true ∧
    ((handleAccept envEx none detEx initialState).st = clearCache initialState ∧
     ∀ c now, detect c now (handleAccept envEx none detEx initialState).st =
       (detectPass c,
        { cacheSet := true, cacheVal := detectPass c, lastDetectionTime := now })) :=
  ⟨rfl, (actuation_clears_cache envEx none detEx initialState).1 rfl⟩

theorem handleDeny_no_reject_eq (env : ActEnv) (bps : Option ButtonPatterns)
    (detection : DetectionResult) (st : DetectorState)
    (h1 : rejectSelectorHit env detection = none)
    (h2 : findAndClickButton env.bannerButtons bps "reject" = none) :
    handleDeny env bps detection st = handleAccept env bps detection st := by
  unfold handleDeny
  simp only [h1, h2]

/-- C8: when a deny actuation finds no reject control — neither through
the CMP reject selectors nor through the reject text-pattern search — the
executor performs the accept actuation on the same detection instead of
leaving the banner unhandled. -/
theorem handleDeny_fallback_to_accept (env : ActEnv) (bps : Option ButtonPatterns)
    (detection : DetectionResult) (st : DetectorState)
    (h1 : rejectSelectorHit env detection = none)
    (h2 : findAndClickButton env.bannerButtons bps "reject" = none) :
    handleDeny env bps detection st = handleAccept env bps detection st :=
  handleDeny_no_reject_eq env bps detection st h1 h2

/-- Witness for the deny fallback at the accept-button-only fixture. -/
theorem handleDeny_fallback_to_accept_witness :
    rejectSelectorHit envEx detEx = none ∧
    findAndClickButton envEx.bannerButtons none "reject" = none ∧
    handleDeny envEx none detEx initialState = handleAccept envEx none detEx initialState :=
  ⟨rfl, rfl, handleDeny_fallback_to_accept envEx none detEx initialState rfl rfl⟩

/-- C10: when a deny request falls back to the accept actuation and the
accept click succeeds, the outbound `bannerHandled` notification carries
`handledAction: 'accept'` — not `'deny'` — so external statistics record
an accept for the deny-polarity request. -/
theorem handleDeny_fallback_notifies_accept (env : ActEnv) (bps : Option ButtonPatterns)
    (detection : DetectionResult) (st : DetectorState)
    (h1 : rejectSelectorHit env detection = none)
    (h2 : findAndClickButton env.bannerButtons bps "reject" = none)
    (h3 : (handleAccept env bps detection st).clicked = true) :
    (handleDeny env bps detection st).notified = ["accept"] ∧
    "deny" ∉ (handleDeny env bps detection st).notified := by
  rw [handleDeny_no_reject_eq env bps detection st h1 h2,
    (handleAccept_clicked_state env bps detection st h3).2]
  exact ⟨rfl, by simp⟩

/-- Witness for the fallback notification at the accept-button-only
fixture. -/
theorem handleDeny_fallback_notifies_accept_witness :
    rejectSelectorHit envEx detEx = none ∧
    findAndClickButton envEx.bannerButtons none "reject" = none ∧
    (handleAccept envEx none detEx initialState).clicked = true ∧
    ((handleDeny envEx none detEx initialState).notified = ["accept"] ∧
     "deny" ∉ (handleDeny envEx none detEx initialState).notified) :=
  ⟨rfl, rfl, rfl,
   handleDeny_fallback_notifies_accept envEx none detEx initialState rfl rfl rfl⟩

theorem detectPass_cKnownOnly : detectPass cKnownOnly = some detEx := by
  rw [detectPass, selectResult_eq_firstMaxConf]
  rfl

theorem detect_cKnownOnly_initial :
    detect cKnownOnly 0 initialState =
      (some detEx,
       { cacheSet := true, cacheVal := some detEx, lastDetectionTime := 0 }) := by
  rw [detect, if_neg]
  · rw [detectPass_cKnownOnly]
  · intro hcontra
    exact absurd hcontra.1 (by simp [initialState])

/-- C9 counterexample: with a detected known-CMP banner but a page
exposing no clickable control, `manualAccept` clicks nothing yet the
handler responds `{ success: true }` (content script line 375 runs
unconditionally after `handleAccept`), not a structured failure. -/
theorem manualActuationClaim_false : ¬ manualActuationClaim := by
  intro h
  have hmsg : handleMessage .manualAccept envNoButtons none cKnownOnly cKnownOnly
      0 0 initialState =
      { response := .success, clicks := [], notified := [],
        st := { cacheSet := true, cacheVal := some detEx, lastDetectionTime := 0 } } := by
    unfold handleMessage
    simp only [detect_cKnownOnly_initial]
    rfl
  have hx := h envNoButtons none cKnownOnly cKnownOnly 0 0 initialState .manualAccept
    (Or.inl rfl) (by rw [detect_cKnownOnly_initial]; rfl) (by rw [hmsg])
  obtain ⟨err, habs⟩ := hx
  rw [hmsg] at habs
  exact absurd habs (by simp)

/-- C9 (amended): every manual actuation command receives a definite
structured response and nothing is thrown (the handler is a total
function into `MessageResponse`); the response is the structured
not-found failure exactly when neither detection attempt finds a banner,
and it is `{ success: true }` whenever a banner is detected — even when
no actuatable control was found and nothing was clicked. -/
theorem handleMessage_manual_definite (env : ActEnv) (bps : Option ButtonPatterns)
    (c₁ c₂ : CycleOutputs) (t₁ t₂ : Int) (st : DetectorState) (msg : PopupMessage)
    (hm : msg = PopupMessage.manualAccept ∨ msg = PopupMessage.manualDeny) :
    ((handleMessage msg env bps c₁ c₂ t₁ t₂ st).response = .success ∨
     (handleMessage msg env bps c₁ c₂ t₁ t₂ st).response =
       .failure "No banner detected") ∧
    ((handleMessage msg env bps c₁ c₂ t₁ t₂ st).response =
       .failure "No banner detected" ↔
      ((detect c₁ t₁ st).1 = none ∧ (detect c₂ t₂ (detect c₁ t₁ st).2).1 = none)) := by
  rcases hm with rfl | rfl <;>
  · unfold handleMessage
    rcases h1 : detect c₁ t₁ st with ⟨d₁, st₁⟩
    simp only [h1]
    cases d₁ with
    | some d => simp
    | none =>
      rcases h2 : detect c₂ t₂ st₁ with ⟨d₂, st₂⟩
      simp only [h2]
      cases d₂ with
      | some d => simp
      | none => simp

/-- Witness for the definite-response law on the no-buttons fixture. -/
theorem handleMessage_manual_definite_witness :
    (PopupMessage.manualAccept = PopupMessage.manualAccept ∨
     PopupMessage.manualAccept = PopupMessage.manualDeny) ∧
    (((handleMessage .manualAccept envNoButtons none cKnownOnly cKnownOnly 0 0
        initialState).response = .success ∨
      (handleMessage .manualAccept envNoButtons none cKnownOnly cKnownOnly 0 0
        initialState).response = .failure "No banner detected") ∧
     ((handleMessage .manualAccept envNoButtons none cKnownOnly cKnownOnly 0 0
        initialState).response = .failure "No banner detected" ↔
       ((detect cKnownOnly 0 initialState).1 = none ∧
        (detect cKnownOnly 0 (detect cKnownOnly 0 initialState).2).1 = none))) :=
  ⟨Or.inl rfl,
   handleMessage_manual_definite envNoButtons none cKnownOnly cKnownOnly 0 0
     initialState PopupMessage.manualAccept (Or.inl rfl)⟩
